import Mathlib

/-!
URL shortener: link store, analytics log and request handlers.

A shallow embedding of `src/utils/urlUtils.js`, `src/utils/analyticsUtils.js` and the
route handlers of `src/index.js`.

Modelling conventions.

* The two persisted files (`urls.json`, `analytics.json`) are the two lists of a `State`.
  `readData` yields the list, `writeData` replaces it; a missing file is the empty list.
  Failing reads or writes of the medium are outside the model.
* Instants (`Date`, `moment`) are milliseconds since the epoch, an `Int`.  Every clock
  reading of the source (`moment()`, `new Date()`) is an explicit argument, one per call site.
* `Math.random().toString(36)` is computed by the engine, not by the repository: its result,
  the radix-36 print of a double in `[0, 1)`, is an explicit argument.
* An absent request field (`undefined`) is `none`.
* `clickCount` is a natural number (the counter is a JavaScript number below `2 ^ 53`).
-/

namespace UrlShortner

/-! ## Data model -/

/-- Milliseconds since the epoch, UTC. -/
abbrev Time := Int

/-- One day, the amount added by `moment().utc().add(1, 'days')`. -/
def oneDay : Int := 86400000

/-- A record of `urls.json`, as built by `addLink`. -/
structure Link where
  originalUrl : String
  shortUrl : String
  expiresAt : Option Time
  clickCount : Nat
  createdAt : Time
  deriving DecidableEq, Repr

/-- A record of `analytics.json`, as built by `addLinkAnalytics`. -/
structure AnalyticsEvent where
  shortUrl : String
  ip : String
  openedDate : Time
  deriving DecidableEq, Repr

/-- The persisted state: the content of `urls.json` and of `analytics.json`. -/
structure State where
  links : List Link
  analytics : List AnalyticsEvent
  deriving DecidableEq, Repr

/-- The validated body of `POST /shorten` (the `value` of `validateShortenRequest`):
`aliasName` is the field `alias` (a reserved word here); it and `expiresAt` are optional.
The schema `Joi.string().max(20)` rejects the empty string, so a validated alias is never
empty; `expiresAt` is a `Date` after validation. -/
structure ShortenValue where
  originalUrl : String
  aliasName : Option String
  expiresAt : Option Time
  deriving DecidableEq, Repr

/-! ## `Math.random().toString(36).substring(2, 8)` -/

/-- The radix-36 digit characters `0-9a-z` of `Number.prototype.toString(36)`. -/
def radix36Digits : List Char := "0123456789abcdefghijklmnopqrstuvwxyz".data

/-- The shape of `x.toString(36)` for a double `x` in `[0, 1)`: the string `0` for zero,
otherwise `0.` followed by one or more radix-36 digits. Which digits, and how many, is the
engine's choice. -/
def isRadix36Print (s : String) : Bool :=
  match s.data with
  | ['0'] => true
  | '0' :: '.' :: d :: ds => (d :: ds).all (fun c => radix36Digits.contains c)
  | _ => false

/-- A value of `Math.random()`, given by the string the engine prints for it with
`toString(36)`: `0.5` is `0.i`, `1 / 4096` is `0.00be29`, `0` is `0`. -/
structure RandomValue where
  printed : String
  shape : isRadix36Print printed = true

/-- The call `s.substring(a, b)` for `a ≤ b`: the characters at indices `a .. b - 1` that exist. -/
def substring (s : String) (a b : Nat) : String :=
  String.mk ((s.data.take b).drop a)

/-- The random token `Math.random().toString(36).substring(2, 8)`. -/
def randomToken (r : RandomValue) : String :=
  substring r.printed 2 8

/-! ## `urlUtils.js` -/

/-- Interpolation `${v}` of a string or `undefined` in a template literal. -/
def templateString : Option String → String
  | some s => s
  | none => "undefined"

/-- Truthiness of a string or `undefined`: only non-empty strings are truthy. -/
def truthy : Option String → Bool
  | some s => s != ""
  | none => false

/-- The function `formatShortUrl`: the base URL, a slash and the interpolated argument. -/
def formatShortUrl (BASE_URL : String) (url : Option String) : String :=
  BASE_URL ++ "/" ++ templateString url

/-- The function `generateShortUrl`: the alias when it is truthy, a random token otherwise. -/
def generateShortUrl (BASE_URL : String) (aliasName : Option String) (r : RandomValue) : String :=
  if truthy aliasName then BASE_URL ++ "/" ++ templateString aliasName
  else BASE_URL ++ "/" ++ randomToken r

/-- The function `findByShortUrl`: the first record whose `shortUrl` is the formatted argument. -/
def findByShortUrl (BASE_URL : String) (links : List Link) (shortUrl : Option String) :
    Option Link :=
  links.find? (fun link => link.shortUrl == formatShortUrl BASE_URL shortUrl)

/-- The function `ensureUniqueShortUrl`; `none` is the returned `false`. The first pass of
the `while (true)` loop always returns, so the loop body runs once. -/
def ensureUniqueShortUrl (BASE_URL : String) (links : List Link) (aliasName : Option String)
    (r : RandomValue) : Option String :=
  match findByShortUrl BASE_URL links aliasName with
  | none => some (generateShortUrl BASE_URL aliasName r)
  | some _ => none

/-- The function `addLink`: the new record and the written list. `createdAt` is the
reading of `new Date()`. -/
def addLink (links : List Link) (originalUrl shortUrl : String) (expiresAt : Option Time)
    (createdAt : Time) : Link × List Link :=
  let newLink : Link :=
    { originalUrl := originalUrl, shortUrl := shortUrl, expiresAt := expiresAt,
      clickCount := 0, createdAt := createdAt }
  (newLink, links ++ [newLink])

/-- The function `deleteByShortUrl`: the written list and whether a record was removed. -/
def deleteByShortUrl (BASE_URL : String) (links : List Link) (shortUrl : Option String) :
    List Link × Bool :=
  let filteredData := links.filter (fun link => link.shortUrl != formatShortUrl BASE_URL shortUrl)
  (filteredData, filteredData.length != links.length)

/-! ## `analyticsUtils.js` -/

/-- The function `addLinkAnalytics`: the log with one event pushed. -/
def addLinkAnalytics (log : List AnalyticsEvent) (shortUrl ip : String) (openedDate : Time) :
    List AnalyticsEvent :=
  log ++ [{ shortUrl := shortUrl, ip := ip, openedDate := openedDate }]

/-- The function `getAnalytics`: the events of the formatted short URL, in log order. -/
def getAnalytics (BASE_URL : String) (log : List AnalyticsEvent) (shortUrl : Option String) :
    List AnalyticsEvent :=
  log.filter (fun link => link.shortUrl == formatShortUrl BASE_URL shortUrl)

/-- The function `deleteAnlytics`: the log without the events of the formatted short URL. -/
def deleteAnlytics (BASE_URL : String) (log : List AnalyticsEvent) (shortUrl : Option String) :
    List AnalyticsEvent :=
  log.filter (fun link => link.shortUrl != formatShortUrl BASE_URL shortUrl)

/-! ## Route handlers of `index.js` -/

/-- Responses of `POST /shorten`: 400 with the validation message, 403, 201 with the short URL. -/
inductive ShortenResponse where
  | badRequest (message : String)
  | conflict
  | created (shortUrl : String)
  deriving DecidableEq, Repr

/-- Responses of `GET /:shortUrl`: 404, 410, redirect to the original URL. -/
inductive ResolveResponse where
  | notFound
  | expired
  | redirect (location : String)
  deriving DecidableEq, Repr

/-- The body of a successful `GET /info/:shortUrl`. -/
structure LinkInfo where
  originalUrl : String
  createdAt : Time
  clickCount : Nat
  expiresAt : Option Time
  deriving DecidableEq, Repr

/-- Responses of `GET /info/:shortUrl`: 404, 200 with the record's fields. -/
inductive InfoResponse where
  | notFound
  | ok (info : LinkInfo)
  deriving DecidableEq, Repr

/-- Responses of `DELETE /delete/:shortUrl`: 404, 200. -/
inductive DeleteResponse where
  | notFound
  | deleted
  deriving DecidableEq, Repr

/-- Responses of `GET /analytics/:shortUrl`: 404, 200 with `clickCount` and `analytics`. -/
inductive AnalyticsResponse where
  | notFound
  | ok (clickCount : Nat) (analytics : List AnalyticsEvent)
  deriving DecidableEq, Repr

/-- Handler of `POST /shorten`. `validated` is the outcome `{ error, value }` of
`validateShortenRequest(req.body)` (the Joi schema is a library), `now` the reading of
`moment()` for the default expiry, `createdAt` the reading of `new Date()` in `addLink`,
`r` the value of `Math.random()`. -/
def createLink (BASE_URL : String) (validated : Except String ShortenValue)
    (now createdAt : Time) (r : RandomValue) (s : State) : ShortenResponse × State :=
  match validated with
  | .error message => (.badRequest message, s)
  | .ok value =>
    let expiresAtDate : Option Time := value.expiresAt
    match ensureUniqueShortUrl BASE_URL s.links value.aliasName r with
    | none => (.conflict, s)
    | some shortUrl =>
      if shortUrl = "" then (.conflict, s)
      else
        let expiresAtDate : Time :=
          match expiresAtDate with
          | some e => e
          | none => now + oneDay
        let added := addLink s.links value.originalUrl shortUrl (some expiresAtDate) createdAt
        (.created added.1.shortUrl, { s with links := added.2 })

/-- The test `link.expiresAt && currentTimeUtc.isAfter(expirationTimeUtc)`. -/
def isExpired (link : Link) (currentTime : Time) : Bool :=
  match link.expiresAt with
  | some expirationTime => decide (expirationTime < currentTime)
  | none => false

/-- The update `link.clickCount += 1` on the record returned by `links.find(p)`: the first
record satisfying `p` is replaced in place, the others are untouched. -/
def bumpClickCount (p : Link → Bool) : List Link → List Link
  | [] => []
  | l :: ls =>
    if p l then { l with clickCount := l.clickCount + 1 } :: ls
    else l :: bumpClickCount p ls

/-- Handler of `GET /:shortUrl`. `currentTime` is the reading of `moment()` used for the
expiry test, `openedDate` the later reading stored in the analytics event. -/
def resolve (BASE_URL : String) (shortUrl ip : String) (currentTime openedDate : Time)
    (s : State) : ResolveResponse × State :=
  let p := fun (l : Link) => l.shortUrl == formatShortUrl BASE_URL (some shortUrl)
  match s.links.find? p with
  | none => (.notFound, s)
  | some link =>
    if isExpired link currentTime then (.expired, s)
    else
      let links := bumpClickCount p s.links
      (.redirect link.originalUrl,
        { links := links,
          analytics := addLinkAnalytics s.analytics link.shortUrl ip openedDate })

/-- Handler of `GET /info/:shortUrl`. -/
def getInfo (BASE_URL : String) (shortUrl : String) (s : State) : InfoResponse :=
  match findByShortUrl BASE_URL s.links (some shortUrl) with
  | none => .notFound
  | some link =>
    .ok { originalUrl := link.originalUrl, createdAt := link.createdAt,
          clickCount := link.clickCount, expiresAt := link.expiresAt }

/-- Handler of `DELETE /delete/:shortUrl`. -/
def deleteLink (BASE_URL : String) (shortUrl : String) (s : State) : DeleteResponse × State :=
  let deleted := deleteByShortUrl BASE_URL s.links (some shortUrl)
  if !deleted.2 then (.notFound, { s with links := deleted.1 })
  else
    (.deleted,
      { links := deleted.1, analytics := deleteAnlytics BASE_URL s.analytics (some shortUrl) })

/-- The call `xs.slice(-n)`: the last `n` elements, all of them when there are fewer. -/
def sliceLast {α : Type} (n : Nat) (xs : List α) : List α :=
  xs.drop (xs.length - n)

/-- Handler of `GET /analytics/:shortUrl`. -/
def getAnalyticsSummary (BASE_URL : String) (shortUrl : String) (s : State) :
    AnalyticsResponse :=
  if shortUrl = "" then .notFound
  else
    let analytics := getAnalytics BASE_URL s.analytics (some shortUrl)
    match analytics.head? with
    | none => .notFound
    | some first =>
      if first.shortUrl = "" then .notFound
      else .ok analytics.length (sliceLast 5 analytics)

/-! ## Sequences of operations -/

/-- A state-changing request together with the clock and random readings it consumes. -/
inductive Op where
  | create (validated : Except String ShortenValue) (now createdAt : Time) (r : RandomValue)
  | resolve (shortUrl ip : String) (currentTime openedDate : Time)
  | delete (shortUrl : String)

/-- The state after one request. -/
def step (BASE_URL : String) (s : State) : Op → State
  | .create validated now createdAt r => (createLink BASE_URL validated now createdAt r s).2
  | .resolve shortUrl ip currentTime openedDate =>
    (resolve BASE_URL shortUrl ip currentTime openedDate s).2
  | .delete shortUrl => (deleteLink BASE_URL shortUrl s).2

/-- Both stores empty. -/
def emptyState : State := { links := [], analytics := [] }

/-- The state after a sequence of requests, starting from empty stores. -/
def run (BASE_URL : String) (ops : List Op) : State :=
  ops.foldl (step BASE_URL) emptyState

/-- States reachable from empty stores by create, resolve and delete requests. -/
inductive Reachable (BASE_URL : String) : State → Prop where
  | empty : Reachable BASE_URL emptyState
  | next (s : State) (op : Op) : Reachable BASE_URL s → Reachable BASE_URL (step BASE_URL s op)

/-- Every analytics event carries the short URL of a record of the link store. -/
def EventsHaveLinks (s : State) : Prop :=
  ∀ e ∈ s.analytics, e.shortUrl ∈ s.links.map Link.shortUrl

/-! ## Auxiliary facts -/

/-- The random token has at most 6 characters, each of them one of `0-9a-z`. -/
theorem randomToken_bounds (r : RandomValue) :
    (randomToken r).length ≤ 6 ∧ ∀ c ∈ (randomToken r).data, c ∈ radix36Digits := by
  refine ⟨?_, ?_⟩
  · simp only [randomToken, substring, String.length, List.length_drop, List.length_take]
    omega
  · intro c hc
    have hshape := r.shape
    have hc2 : c ∈ (r.printed.data.take 8).drop 2 := by
      simpa [randomToken, substring] using hc
    have hc3 : c ∈ r.printed.data.drop 2 := by
      rw [List.drop_take] at hc2
      exact List.mem_of_mem_take hc2
    unfold isRadix36Print at hshape
    split at hshape
    · rename_i h0
      rw [h0] at hc3
      simp at hc3
    · rename_i d ds h0
      rw [h0] at hc3
      simp only [List.drop_succ_cons, List.drop_zero] at hc3
      rw [List.all_eq_true] at hshape
      simpa using hshape c hc3
    · exact absurd hshape (by decide)

/-- The random token has exactly 6 characters when the engine prints at least 6
fractional digits. -/
theorem randomToken_length_six (r : RandomValue) (h : 8 ≤ r.printed.length) :
    (randomToken r).length = 6 := by
  have h2 : 8 ≤ r.printed.data.length := h
  simp only [randomToken, substring, String.length, List.length_drop, List.length_take]
  omega

theorem formatShortUrl_ne_empty (BASE_URL : String) (url : Option String) :
    formatShortUrl BASE_URL url ≠ "" := by
  intro h
  have h2 := congrArg String.length h
  have h3 : "/".length = 1 := by decide
  simp [formatShortUrl, String.length_append, h3] at h2

theorem generateShortUrl_alias (BASE_URL a : String) (ha : a ≠ "") (r : RandomValue) :
    generateShortUrl BASE_URL (some a) r = formatShortUrl BASE_URL (some a) := by
  simp [generateShortUrl, formatShortUrl, truthy, templateString, ha]

theorem generateShortUrl_ne_empty (BASE_URL : String) (aliasName : Option String)
    (r : RandomValue) : generateShortUrl BASE_URL aliasName r ≠ "" := by
  intro h
  have h2 := congrArg String.length h
  have h3 : "/".length = 1 := by decide
  unfold generateShortUrl at h2
  split at h2 <;> simp [String.length_append, h3] at h2

/-- A successful create appends exactly one record, built from the request. -/
theorem createLink_created (BASE_URL : String) (value : ShortenValue) (now createdAt : Time)
    (r : RandomValue) (s s1 : State) (short : String)
    (h : createLink BASE_URL (.ok value) now createdAt r s = (.created short, s1)) :
    findByShortUrl BASE_URL s.links value.aliasName = none ∧
    short = generateShortUrl BASE_URL value.aliasName r ∧
    s1 = { links := s.links ++
            [{ originalUrl := value.originalUrl, shortUrl := short,
               expiresAt := some (value.expiresAt.getD (now + oneDay)),
               clickCount := 0, createdAt := createdAt }],
           analytics := s.analytics } := by
  unfold createLink ensureUniqueShortUrl at h
  cases hf : findByShortUrl BASE_URL s.links value.aliasName with
  | some l => simp [hf] at h
  | none =>
    simp only [hf] at h
    have hne := generateShortUrl_ne_empty BASE_URL value.aliasName r
    simp only [hne, if_false, addLink, Prod.mk.injEq, ShortenResponse.created.injEq] at h
    obtain ⟨h1, h2⟩ := h
    refine ⟨rfl, h1.symm, ?_⟩
    subst h1
    rw [← h2]
    cases value.expiresAt <;> rfl

/-- The record found by `find` splits the list; `bumpClickCount` rewrites that record only. -/
theorem bumpClickCount_of_find (p : Link → Bool) (ls : List Link) (l : Link)
    (h : ls.find? p = some l) :
    ∃ pre post, ls = pre ++ l :: post ∧ (∀ x ∈ pre, p x = false) ∧ p l = true ∧
      bumpClickCount p ls = pre ++ { l with clickCount := l.clickCount + 1 } :: post := by
  induction ls with
  | nil => simp at h
  | cons x xs ih =>
    by_cases hx : p x = true
    · simp only [List.find?_cons, hx, Option.some.injEq] at h
      subst h
      exact ⟨[], xs, by simp, by simp, hx, by simp [bumpClickCount, hx]⟩
    · have hx2 : p x = false := by simpa using hx
      simp only [List.find?_cons, hx2] at h
      obtain ⟨pre, post, h1, h2, h3, h4⟩ := ih h
      refine ⟨x :: pre, post, by simp [h1], ?_, h3, ?_⟩
      · intro y hy
        rcases List.mem_cons.mp hy with rfl | hy
        · exact hx2
        · exact h2 y hy
      · simp [bumpClickCount, hx2, h4]

/-- The three outcomes of `resolve`, by the lookup and the expiry test. -/
theorem resolve_cases (BASE_URL token ip : String) (currentTime openedDate : Time) (s : State) :
    (findByShortUrl BASE_URL s.links (some token) = none →
      resolve BASE_URL token ip currentTime openedDate s = (.notFound, s)) ∧
    (∀ link, findByShortUrl BASE_URL s.links (some token) = some link →
      isExpired link currentTime = true →
      resolve BASE_URL token ip currentTime openedDate s = (.expired, s)) ∧
    (∀ link, findByShortUrl BASE_URL s.links (some token) = some link →
      isExpired link currentTime = false →
      resolve BASE_URL token ip currentTime openedDate s =
        (.redirect link.originalUrl,
          { links := bumpClickCount
              (fun l => l.shortUrl == formatShortUrl BASE_URL (some token)) s.links,
            analytics := s.analytics ++
              [{ shortUrl := link.shortUrl, ip := ip, openedDate := openedDate }] })) := by
  unfold findByShortUrl resolve addLinkAnalytics
  refine ⟨?_, ?_, ?_⟩
  · intro h
    simp [h]
  · intro link h he
    simp [h, he]
  · intro link h he
    simp [h, he]

/-- The function `formatShortUrl` is injective in the token. -/
theorem formatShortUrl_injective (BASE_URL t1 t2 : String)
    (h : formatShortUrl BASE_URL (some t1) = formatShortUrl BASE_URL (some t2)) : t1 = t2 := by
  have h2 := congrArg String.data h
  simp only [formatShortUrl, templateString, String.data_append, List.append_cancel_left_eq]
    at h2
  exact String.ext h2

theorem bumpClickCount_shortUrls (p : Link → Bool) (ls : List Link) :
    (bumpClickCount p ls).map Link.shortUrl = ls.map Link.shortUrl := by
  induction ls with
  | nil => rfl
  | cons x xs ih =>
    unfold bumpClickCount
    split
    · rfl
    · simp [ih]

theorem createLink_state (BASE_URL : String) (validated : Except String ShortenValue)
    (now createdAt : Time) (r : RandomValue) (s : State) :
    (createLink BASE_URL validated now createdAt r s).2 = s ∨
    ∃ l, (createLink BASE_URL validated now createdAt r s).2 =
      { links := s.links ++ [l], analytics := s.analytics } := by
  unfold createLink
  cases validated with
  | error message => exact Or.inl rfl
  | ok value =>
    simp only
    cases ensureUniqueShortUrl BASE_URL s.links value.aliasName r with
    | none => exact Or.inl rfl
    | some shortUrl =>
      simp only
      split
      · exact Or.inl rfl
      · exact Or.inr ⟨_, rfl⟩

theorem step_eventsHaveLinks (BASE_URL : String) (s : State) (op : Op)
    (h : EventsHaveLinks s) : EventsHaveLinks (step BASE_URL s op) := by
  cases op with
  | create validated now createdAt r =>
    simp only [step]
    rcases createLink_state BASE_URL validated now createdAt r s with h1 | ⟨l, h1⟩
    · rw [h1]
      exact h
    · rw [h1]
      intro e he
      have := h e he
      simp only [List.map_append, List.mem_append]
      exact Or.inl this
  | resolve shortUrl ip currentTime openedDate =>
    simp only [step]
    obtain ⟨hnf, hex, hok⟩ := resolve_cases BASE_URL shortUrl ip currentTime openedDate s
    cases hf : findByShortUrl BASE_URL s.links (some shortUrl) with
    | none =>
      rw [hnf hf]
      exact h
    | some link =>
      cases hx : isExpired link currentTime with
      | true =>
        rw [hex link hf hx]
        exact h
      | false =>
        rw [hok link hf hx]
        intro e he
        simp only [bumpClickCount_shortUrls]
        simp only [List.mem_append, List.mem_singleton] at he
        rcases he with he | he
        · exact h e he
        · subst he
          unfold findByShortUrl at hf
          exact List.mem_map_of_mem _ (List.mem_of_find?_eq_some hf)
  | delete shortUrl =>
    simp only [step, deleteLink, deleteByShortUrl, deleteAnlytics]
    split
    · rename_i hlen
      have hlen2 : (s.links.filter
          (fun link => link.shortUrl != formatShortUrl BASE_URL (some shortUrl))).length =
          s.links.length := by
        simpa using hlen
      have hall := List.filter_length_eq_length.mp hlen2
      rw [List.filter_eq_self.mpr hall]
      exact h
    · intro e he
      simp only [List.mem_filter] at he
      have hmem := h e he.1
      simp only [List.mem_map] at hmem ⊢
      obtain ⟨l, hl, hle⟩ := hmem
      refine ⟨l, ?_, hle⟩
      simp only [List.mem_filter]
      refine ⟨hl, ?_⟩
      rw [hle]
      exact he.2

theorem reachable_eventsHaveLinks (BASE_URL : String) (s : State)
    (h : Reachable BASE_URL s) : EventsHaveLinks s := by
  induction h with
  | empty =>
    intro e he
    simp [emptyState] at he
  | next s op _ ih => exact step_eventsHaveLinks BASE_URL s op ih

/-- After the update the lookup finds the updated record. -/
theorem find_bumpClickCount (x : String) (ls : List Link) (l : Link)
    (h : ls.find? (fun l => l.shortUrl == x) = some l) :
    (bumpClickCount (fun l => l.shortUrl == x) ls).find? (fun l => l.shortUrl == x) =
      some { l with clickCount := l.clickCount + 1 } := by
  induction ls with
  | nil => simp at h
  | cons y ys ih =>
    by_cases hy : (y.shortUrl == x) = true
    · simp only [List.find?_cons, hy, Option.some.injEq] at h
      subst h
      simp [bumpClickCount, hy]
    · have hy2 : (y.shortUrl == x) = false := by simpa using hy
      simp only [List.find?_cons, hy2] at h
      simp only [bumpClickCount, hy2, Bool.false_eq_true, if_false, List.find?_cons]
      exact ih h

/-- Every state produced by `run` is reachable. -/
theorem reachable_run (BASE_URL : String) (ops : List Op) :
    Reachable BASE_URL (run BASE_URL ops) := by
  have hfold : ∀ (l : List Op) (s : State), Reachable BASE_URL s →
      Reachable BASE_URL (l.foldl (step BASE_URL) s) := by
    intro l
    induction l with
    | nil => exact fun _ h => h
    | cons op rest ih => exact fun s h => ih _ (.next s op h)
  exact hfold ops emptyState .empty

/-! ## Create -/

/-- C1: for every state and every non-empty alias, when a create request with that alias
succeeds, a second create request with the same alias (any original URL, any expiry, any
clock and random readings) answers Conflict and leaves both stores exactly as they were. -/
theorem createLink_same_alias_twice_conflict (BASE_URL : String) (s s1 : State) (a : String)
    (ha : a ≠ "") (u1 : String) (e1 : Option Time) (now1 created1 : Time) (r1 : RandomValue)
    (short : String)
    (h1 : createLink BASE_URL (.ok ⟨u1, some a, e1⟩) now1 created1 r1 s = (.created short, s1))
    (u2 : String) (e2 : Option Time) (now2 created2 : Time) (r2 : RandomValue) :
    createLink BASE_URL (.ok ⟨u2, some a, e2⟩) now2 created2 r2 s1 = (.conflict, s1) := by
  obtain ⟨hnone, hshort, hs1⟩ := createLink_created BASE_URL _ now1 created1 r1 s s1 short h1
  simp only at hnone hshort hs1
  rw [generateShortUrl_alias BASE_URL a ha] at hshort
  have hfind : (findByShortUrl BASE_URL s1.links (some a)).isSome = true := by
    subst hs1
    unfold findByShortUrl at hnone ⊢
    simp [List.find?_append, hnone, hshort]
  unfold createLink ensureUniqueShortUrl
  cases hf : findByShortUrl BASE_URL s1.links (some a) with
  | none => simp [hf] at hfind
  | some l => simp [hf]

/-- Witness for C1 with the alias `testlink` of the end-to-end test, on empty stores. -/
theorem createLink_same_alias_twice_conflict_witness :
    "testlink" ≠ "" ∧
    createLink "http://localhost:5000" (.ok ⟨"https://example.com", some "testlink", none⟩)
      10 11 ⟨"0", by decide⟩ emptyState
    = (.created "http://localhost:5000/testlink",
      { links := [⟨"https://example.com", "http://localhost:5000/testlink", some 86400010, 0, 11⟩],
        analytics := [] }) ∧
    createLink "http://localhost:5000"
      (.ok ⟨"https://other.example", some "testlink", some 5⟩) 20 21 ⟨"0.i", by decide⟩
      { links := [⟨"https://example.com", "http://localhost:5000/testlink", some 86400010, 0, 11⟩],
        analytics := [] }
    = (.conflict,
      { links := [⟨"https://example.com", "http://localhost:5000/testlink", some 86400010, 0, 11⟩],
        analytics := [] }) :=
  ⟨by decide, by decide,
    createLink_same_alias_twice_conflict "http://localhost:5000" emptyState _ "testlink"
      (by decide) "https://example.com" none 10 11 ⟨"0", by decide⟩
      "http://localhost:5000/testlink" (by decide) "https://other.example" (some 5) 20 21
      ⟨"0.i", by decide⟩⟩

/-! ## Resolve -/

/-- C3: when the token's link exists and is not expired, one resolve call redirects to its
original URL, replaces that record by the same record with `clickCount` one higher (all
other fields and all other records, before and after it, unchanged), and appends exactly one
event to the end of the analytics log, carrying the link's short URL, the client's address
and the access time read for the event. -/
theorem resolve_live_link (BASE_URL token ip : String) (currentTime openedDate : Time)
    (s : State) (link : Link)
    (hfind : findByShortUrl BASE_URL s.links (some token) = some link)
    (hlive : ∀ e, link.expiresAt = some e → currentTime ≤ e) :
    ∃ pre post,
      s.links = pre ++ link :: post ∧
      (∀ l ∈ pre, l.shortUrl ≠ formatShortUrl BASE_URL (some token)) ∧
      resolve BASE_URL token ip currentTime openedDate s =
        (.redirect link.originalUrl,
          { links := pre ++ { link with clickCount := link.clickCount + 1 } :: post,
            analytics := s.analytics ++
              [{ shortUrl := link.shortUrl, ip := ip, openedDate := openedDate }] }) := by
  unfold findByShortUrl at hfind
  obtain ⟨pre, post, h1, h2, _, h4⟩ := bumpClickCount_of_find _ _ _ hfind
  refine ⟨pre, post, h1, ?_, ?_⟩
  · intro l hl
    simpa using h2 l hl
  · have hexp : isExpired link currentTime = false := by
      unfold isExpired
      cases he : link.expiresAt with
      | none => rfl
      | some e => simpa using hlive e he
    simp only [resolve, hfind, hexp, h4, addLinkAnalytics]
    simp

/-- Witness for C3: the second of three records is resolved. -/
theorem resolve_live_link_witness :
    ∃ pre post,
      [(⟨"https://a.example", "http://localhost:5000/a", none, 4, 0⟩ : Link),
        ⟨"https://b.example", "http://localhost:5000/b", some 100, 7, 1⟩,
        ⟨"https://c.example", "http://localhost:5000/b", some 50, 2, 2⟩]
        = pre ++ ⟨"https://b.example", "http://localhost:5000/b", some 100, 7, 1⟩ :: post ∧
      (∀ l ∈ pre, l.shortUrl ≠ formatShortUrl "http://localhost:5000" (some "b")) ∧
      resolve "http://localhost:5000" "b" "10.0.0.1" 100 101
        { links := [⟨"https://a.example", "http://localhost:5000/a", none, 4, 0⟩,
            ⟨"https://b.example", "http://localhost:5000/b", some 100, 7, 1⟩,
            ⟨"https://c.example", "http://localhost:5000/b", some 50, 2, 2⟩],
          analytics := [⟨"http://localhost:5000/a", "10.0.0.9", 3⟩] } =
        (.redirect "https://b.example",
          { links := pre ++ ⟨"https://b.example", "http://localhost:5000/b", some 100, 7 + 1, 1⟩
              :: post,
            analytics := [⟨"http://localhost:5000/a", "10.0.0.9", 3⟩] ++
              [⟨"http://localhost:5000/b", "10.0.0.1", 101⟩] }) :=
  resolve_live_link "http://localhost:5000" "b" "10.0.0.1" 100 101
    { links := [⟨"https://a.example", "http://localhost:5000/a", none, 4, 0⟩,
        ⟨"https://b.example", "http://localhost:5000/b", some 100, 7, 1⟩,
        ⟨"https://c.example", "http://localhost:5000/b", some 50, 2, 2⟩],
      analytics := [⟨"http://localhost:5000/a", "10.0.0.9", 3⟩] }
    ⟨"https://b.example", "http://localhost:5000/b", some 100, 7, 1⟩ (by decide)
    (by intro e he; cases he; exact le_refl _)

/-- C4: resolve answers Expired exactly when a link for the token exists, its `expiresAt`
is set and the current time is strictly after it; a resolve at exactly `expiresAt`
redirects; and whenever resolve answers Expired or NotFound both stores are unchanged. -/
theorem resolve_expired_iff (BASE_URL token ip : String) (currentTime openedDate : Time)
    (s : State) :
    ((resolve BASE_URL token ip currentTime openedDate s).1 = .expired ↔
      ∃ link e, findByShortUrl BASE_URL s.links (some token) = some link ∧
        link.expiresAt = some e ∧ e < currentTime) ∧
    (∀ link, findByShortUrl BASE_URL s.links (some token) = some link →
      link.expiresAt = some currentTime →
      (resolve BASE_URL token ip currentTime openedDate s).1 = .redirect link.originalUrl) ∧
    ((resolve BASE_URL token ip currentTime openedDate s).1 = .expired ∨
        (resolve BASE_URL token ip currentTime openedDate s).1 = .notFound →
      (resolve BASE_URL token ip currentTime openedDate s).2 = s) := by
  obtain ⟨hnf, hex, hok⟩ := resolve_cases BASE_URL token ip currentTime openedDate s
  cases hf : findByShortUrl BASE_URL s.links (some token) with
  | none => simp [hnf hf]
  | some link =>
    cases hx : isExpired link currentTime with
    | true =>
      have hx2 := hx
      unfold isExpired at hx2
      cases he : link.expiresAt with
      | none => simp [he] at hx2
      | some e =>
        have hlt : e < currentTime := by simpa [he] using hx2
        simp [hex link hf hx, he, hlt, ne_of_lt hlt]
    | false =>
      have hx2 := hx
      unfold isExpired at hx2
      cases he : link.expiresAt with
      | none => simp [hok link hf hx, he]
      | some e =>
        have hlt : ¬ e < currentTime := by simpa [he] using hx2
        simp [hok link hf hx, he]
        exact le_of_not_lt hlt

/-- Witness for C4: a link expiring at 100 is resolved at 100 (redirect) and at 101 (Expired,
nothing written). -/
theorem resolve_expired_iff_witness :
    (resolve "http://localhost:5000" "b" "10.0.0.1" 100 100
      { links := [⟨"https://b.example", "http://localhost:5000/b", some 100, 7, 1⟩],
        analytics := [] }).1 = .redirect "https://b.example" ∧
    (resolve "http://localhost:5000" "b" "10.0.0.1" 101 101
      { links := [⟨"https://b.example", "http://localhost:5000/b", some 100, 7, 1⟩],
        analytics := [] }).1 = .expired ∧
    (resolve "http://localhost:5000" "b" "10.0.0.1" 101 101
      { links := [⟨"https://b.example", "http://localhost:5000/b", some 100, 7, 1⟩],
        analytics := [] }).2 =
      { links := [⟨"https://b.example", "http://localhost:5000/b", some 100, 7, 1⟩],
        analytics := [] } :=
  ⟨(resolve_expired_iff "http://localhost:5000" "b" "10.0.0.1" 100 100
      { links := [⟨"https://b.example", "http://localhost:5000/b", some 100, 7, 1⟩],
        analytics := [] }).2.1 ⟨"https://b.example", "http://localhost:5000/b", some 100, 7, 1⟩
      (by decide) rfl,
    (resolve_expired_iff "http://localhost:5000" "b" "10.0.0.1" 101 101
      { links := [⟨"https://b.example", "http://localhost:5000/b", some 100, 7, 1⟩],
        analytics := [] }).1.mpr
      ⟨⟨"https://b.example", "http://localhost:5000/b", some 100, 7, 1⟩, 100,
        by decide, rfl, by decide⟩,
    (resolve_expired_iff "http://localhost:5000" "b" "10.0.0.1" 101 101
      { links := [⟨"https://b.example", "http://localhost:5000/b", some 100, 7, 1⟩],
        analytics := [] }).2.2 (Or.inl (by decide))⟩

/-! ## Default expiry -/

/-- C5, as stated, fails: the default expiry is computed from the handler's clock reading
(here 0), the stored `createdAt` is a later reading taken in `addLink` (here 1). The stored
`expiresAt` is 86400000, not `createdAt` plus one day, and a resolve at `createdAt` plus one
day answers Expired. -/
theorem default_expiry_not_createdAt_plus_day :
    (createLink "http://localhost:5000" (.ok ⟨"https://example.com", some "a", none⟩)
      0 1 ⟨"0", by decide⟩ emptyState).2.links =
      [⟨"https://example.com", "http://localhost:5000/a", some 86400000, 0, 1⟩] ∧
    (86400000 : Int) ≠ 1 + oneDay ∧
    (1 : Int) ≤ 1 + oneDay ∧
    (resolve "http://localhost:5000" "a" "10.0.0.1" (1 + oneDay) (1 + oneDay)
      (createLink "http://localhost:5000" (.ok ⟨"https://example.com", some "a", none⟩)
        0 1 ⟨"0", by decide⟩ emptyState).2).1 = .expired := by
  decide

/-- C5, amended: for a link created without a custom `expiresAt` whose short URL was not
already in the store, the stored `expiresAt` is the handler's clock reading `now` plus one
day and the stored `createdAt` is the separate reading of `addLink`; a resolve at any
`t ≤ now + 1 day` redirects to the original URL, a resolve at any `t > now + 1 day` answers
Expired, and when `now ≤ createdAt` so does every resolve at `t > createdAt + 1 day`. -/
theorem default_expiry_is_now_plus_day (BASE_URL : String) (s s1 : State) (u : String)
    (aliasName : Option String) (now createdAt : Time) (r : RandomValue) (short token : String)
    (h : createLink BASE_URL (.ok ⟨u, aliasName, none⟩) now createdAt r s = (.created short, s1))
    (htoken : short = formatShortUrl BASE_URL (some token))
    (hfresh : findByShortUrl BASE_URL s.links (some token) = none) :
    findByShortUrl BASE_URL s1.links (some token) =
      some ⟨u, short, some (now + oneDay), 0, createdAt⟩ ∧
    (∀ (ip : String) (t t2 : Time), t ≤ now + oneDay →
      (resolve BASE_URL token ip t t2 s1).1 = .redirect u) ∧
    (∀ (ip : String) (t t2 : Time), now + oneDay < t →
      resolve BASE_URL token ip t t2 s1 = (.expired, s1)) ∧
    (now ≤ createdAt → ∀ (ip : String) (t t2 : Time), createdAt + oneDay < t →
      resolve BASE_URL token ip t t2 s1 = (.expired, s1)) := by
  obtain ⟨_, _, hs1⟩ := createLink_created BASE_URL _ now createdAt r s s1 short h
  simp only [Option.getD_none] at hs1
  have hfind : findByShortUrl BASE_URL s1.links (some token) =
      some ⟨u, short, some (now + oneDay), 0, createdAt⟩ := by
    subst hs1
    unfold findByShortUrl at hfresh ⊢
    simp [List.find?_append, hfresh, htoken]
  have hexp : ∀ t : Time, now + oneDay < t →
      isExpired ⟨u, short, some (now + oneDay), 0, createdAt⟩ t = true := by
    intro t ht
    simp [isExpired, ht]
  have hlive : ∀ t : Time, t ≤ now + oneDay →
      isExpired ⟨u, short, some (now + oneDay), 0, createdAt⟩ t = false := by
    intro t ht
    simp [isExpired, not_lt.mpr ht]
  refine ⟨hfind, ?_, ?_, ?_⟩
  · intro ip t t2 ht
    rw [(resolve_cases BASE_URL token ip t t2 s1).2.2 _ hfind (hlive t ht)]
  · intro ip t t2 ht
    exact (resolve_cases BASE_URL token ip t t2 s1).2.1 _ hfind (hexp t ht)
  · intro hle ip t t2 ht
    have ht2 : now + oneDay < t := lt_of_le_of_lt (add_le_add_right hle oneDay) ht
    exact (resolve_cases BASE_URL token ip t t2 s1).2.1 _ hfind (hexp t ht2)

/-- Witness for the amended C5: creation at clock reading 0 (record stamped 1), resolve at
one day (redirect) and one millisecond later (Expired). -/
theorem default_expiry_is_now_plus_day_witness :
    (resolve "http://localhost:5000" "a" "10.0.0.1" oneDay oneDay
      { links := [⟨"https://example.com", "http://localhost:5000/a", some 86400000, 0, 1⟩],
        analytics := [] }).1 = .redirect "https://example.com" ∧
    resolve "http://localhost:5000" "a" "10.0.0.1" (oneDay + 1) (oneDay + 1)
      { links := [⟨"https://example.com", "http://localhost:5000/a", some 86400000, 0, 1⟩],
        analytics := [] } =
      (.expired,
        { links := [⟨"https://example.com", "http://localhost:5000/a", some 86400000, 0, 1⟩],
          analytics := [] }) ∧
    resolve "http://localhost:5000" "a" "10.0.0.1" (oneDay + 2) (oneDay + 2)
      { links := [⟨"https://example.com", "http://localhost:5000/a", some 86400000, 0, 1⟩],
        analytics := [] } =
      (.expired,
        { links := [⟨"https://example.com", "http://localhost:5000/a", some 86400000, 0, 1⟩],
          analytics := [] }) :=
  ⟨(default_expiry_is_now_plus_day "http://localhost:5000" emptyState
      { links := [⟨"https://example.com", "http://localhost:5000/a", some 86400000, 0, 1⟩],
        analytics := [] }
      "https://example.com" (some "a") 0 1 ⟨"0", by decide⟩ "http://localhost:5000/a" "a"
      (by decide) (by decide) (by decide)).2.1 "10.0.0.1" oneDay oneDay (by decide),
    (default_expiry_is_now_plus_day "http://localhost:5000" emptyState
      { links := [⟨"https://example.com", "http://localhost:5000/a", some 86400000, 0, 1⟩],
        analytics := [] }
      "https://example.com" (some "a") 0 1 ⟨"0", by decide⟩ "http://localhost:5000/a" "a"
      (by decide) (by decide) (by decide)).2.2.1 "10.0.0.1" (oneDay + 1) (oneDay + 1)
      (by decide),
    (default_expiry_is_now_plus_day "http://localhost:5000" emptyState
      { links := [⟨"https://example.com", "http://localhost:5000/a", some 86400000, 0, 1⟩],
        analytics := [] }
      "https://example.com" (some "a") 0 1 ⟨"0", by decide⟩ "http://localhost:5000/a" "a"
      (by decide) (by decide) (by decide)).2.2.2 (by decide) "10.0.0.1" (oneDay + 2)
      (oneDay + 2) (by decide)⟩

/-! ## Delete -/

/-- C6: when the token's link exists, delete answers success; the link store becomes the
old one without the records of that short URL and the analytics log the old one without the
events of that short URL (everything else kept, in its original order); no record and no
event of that short URL remains, and afterwards both `getInfo` and `getAnalyticsSummary`
for the token answer NotFound. -/
theorem deleteLink_removes_link_and_events (BASE_URL token : String) (s : State) (link : Link)
    (hfind : findByShortUrl BASE_URL s.links (some token) = some link) :
    deleteLink BASE_URL token s =
      (.deleted,
        { links := s.links.filter
            (fun l => l.shortUrl != formatShortUrl BASE_URL (some token)),
          analytics := s.analytics.filter
            (fun e => e.shortUrl != formatShortUrl BASE_URL (some token)) }) ∧
    (∀ l ∈ (deleteLink BASE_URL token s).2.links,
      l.shortUrl ≠ formatShortUrl BASE_URL (some token)) ∧
    (∀ e ∈ (deleteLink BASE_URL token s).2.analytics,
      e.shortUrl ≠ formatShortUrl BASE_URL (some token)) ∧
    getInfo BASE_URL token (deleteLink BASE_URL token s).2 = .notFound ∧
    getAnalyticsSummary BASE_URL token (deleteLink BASE_URL token s).2 = .notFound := by
  have hmem : link ∈ s.links ∧ link.shortUrl = formatShortUrl BASE_URL (some token) := by
    unfold findByShortUrl at hfind
    have h1 := List.mem_of_find?_eq_some hfind
    have h2 := List.find?_some hfind
    exact ⟨h1, by simpa using h2⟩
  have hlen : ((s.links.filter
      (fun l => l.shortUrl != formatShortUrl BASE_URL (some token))).length
        != s.links.length) = true := by
    rw [bne_iff_ne]
    intro hcontra
    have hall := (List.filter_length_eq_length.mp hcontra) link hmem.1
    simp [hmem.2] at hall
  have hdel : deleteLink BASE_URL token s =
      (.deleted,
        { links := s.links.filter
            (fun l => l.shortUrl != formatShortUrl BASE_URL (some token)),
          analytics := s.analytics.filter
            (fun e => e.shortUrl != formatShortUrl BASE_URL (some token)) }) := by
    unfold deleteLink deleteByShortUrl deleteAnlytics
    simp only [hlen, Bool.not_true, Bool.false_eq_true, if_false]
  have hlinks : ∀ l ∈ (deleteLink BASE_URL token s).2.links,
      l.shortUrl ≠ formatShortUrl BASE_URL (some token) := by
    rw [hdel]
    intro l hl
    simpa using (List.mem_filter.mp hl).2
  have hevents : ∀ e ∈ (deleteLink BASE_URL token s).2.analytics,
      e.shortUrl ≠ formatShortUrl BASE_URL (some token) := by
    rw [hdel]
    intro e he
    simpa using (List.mem_filter.mp he).2
  refine ⟨hdel, hlinks, hevents, ?_, ?_⟩
  · unfold getInfo findByShortUrl
    have hnone : (deleteLink BASE_URL token s).2.links.find?
        (fun l => l.shortUrl == formatShortUrl BASE_URL (some token)) = none := by
      rw [List.find?_eq_none]
      intro l hl
      simpa using hlinks l hl
    simp only [hnone]
  · unfold getAnalyticsSummary getAnalytics
    have hnil : (deleteLink BASE_URL token s).2.analytics.filter
        (fun e => e.shortUrl == formatShortUrl BASE_URL (some token)) = [] := by
      rw [List.filter_eq_nil_iff]
      intro e he
      simpa using hevents e he
    simp only [hnil, List.head?_nil]
    split <;> rfl

/-- Witness for C6: two records and three events, the token `a` owning one record and two
events. -/
theorem deleteLink_removes_link_and_events_witness :
    deleteLink "http://localhost:5000" "a"
      { links := [⟨"https://a.example", "http://localhost:5000/a", none, 2, 0⟩,
          ⟨"https://b.example", "http://localhost:5000/b", some 100, 1, 1⟩],
        analytics := [⟨"http://localhost:5000/a", "10.0.0.1", 3⟩,
          ⟨"http://localhost:5000/b", "10.0.0.2", 4⟩,
          ⟨"http://localhost:5000/a", "10.0.0.3", 5⟩] } =
      (.deleted,
        { links := [⟨"https://b.example", "http://localhost:5000/b", some 100, 1, 1⟩],
          analytics := [⟨"http://localhost:5000/b", "10.0.0.2", 4⟩] }) :=
  (deleteLink_removes_link_and_events "http://localhost:5000" "a"
    { links := [⟨"https://a.example", "http://localhost:5000/a", none, 2, 0⟩,
        ⟨"https://b.example", "http://localhost:5000/b", some 100, 1, 1⟩],
      analytics := [⟨"http://localhost:5000/a", "10.0.0.1", 3⟩,
        ⟨"http://localhost:5000/b", "10.0.0.2", 4⟩,
        ⟨"http://localhost:5000/a", "10.0.0.3", 5⟩] }
    ⟨"https://a.example", "http://localhost:5000/a", none, 2, 0⟩ (by decide)).1

/-! ## Analytics summary -/

/-- C7: for every analytics log and every token (a route parameter, which is never the
empty string), with `M` the events whose short URL equals `formatShortUrl token`, in log
order, the summary is NotFound when `M` is empty, and otherwise has `totalCount` the
length of `M` and `recentEvents` the last `min 5 (length M)` elements of `M`, in the same
order. -/
theorem getAnalyticsSummary_nonempty_token (BASE_URL token : String) (htoken : token ≠ "")
    (s : State) :
    (s.analytics.filter (fun e => decide (e.shortUrl = formatShortUrl BASE_URL (some token)))
        = [] →
      getAnalyticsSummary BASE_URL token s = .notFound) ∧
    (s.analytics.filter (fun e => decide (e.shortUrl = formatShortUrl BASE_URL (some token)))
        ≠ [] →
      getAnalyticsSummary BASE_URL token s =
        .ok
          (s.analytics.filter
            (fun e => decide (e.shortUrl = formatShortUrl BASE_URL (some token)))).length
          ((s.analytics.filter
            (fun e => decide (e.shortUrl = formatShortUrl BASE_URL (some token)))).drop
            ((s.analytics.filter
              (fun e => decide (e.shortUrl = formatShortUrl BASE_URL (some token)))).length -
              min 5 (s.analytics.filter
                (fun e => decide (e.shortUrl = formatShortUrl BASE_URL (some token)))).length))) := by
  have hfun : (fun (e : AnalyticsEvent) => e.shortUrl == formatShortUrl BASE_URL (some token)) =
      (fun e => decide (e.shortUrl = formatShortUrl BASE_URL (some token))) := by
    funext e
    simp [BEq.beq]
  unfold getAnalyticsSummary getAnalytics sliceLast
  rw [hfun]
  generalize hM : s.analytics.filter
    (fun e => decide (e.shortUrl = formatShortUrl BASE_URL (some token))) = M
  simp only [htoken, if_false]
  cases M with
  | nil => simp
  | cons first rest =>
    have hfirst : first.shortUrl = formatShortUrl BASE_URL (some token) := by
      have hm : first ∈ s.analytics.filter
          (fun e => decide (e.shortUrl = formatShortUrl BASE_URL (some token))) := by
        rw [hM]
        exact List.mem_cons_self _ _
      simpa using (List.mem_filter.mp hm).2
    have hne : first.shortUrl ≠ "" := by
      rw [hfirst]
      exact formatShortUrl_ne_empty BASE_URL (some token)
    simp only [List.head?_cons, hne, if_false]
    refine ⟨by simp, fun _ => ?_⟩
    congr 2
    omega

/-- Witness for C7: seven events of token `a` around one of token `b`; the
summary counts seven and lists the last five. -/
theorem getAnalyticsSummary_nonempty_token_witness :
    getAnalyticsSummary "http://localhost:5000" "a"
      { links := [],
        analytics := [⟨"http://localhost:5000/a", "ip1", 1⟩, ⟨"http://localhost:5000/a", "ip2", 2⟩,
          ⟨"http://localhost:5000/a", "ip3", 3⟩, ⟨"http://localhost:5000/b", "ip4", 4⟩,
          ⟨"http://localhost:5000/a", "ip5", 5⟩, ⟨"http://localhost:5000/a", "ip6", 6⟩,
          ⟨"http://localhost:5000/a", "ip7", 7⟩, ⟨"http://localhost:5000/a", "ip8", 8⟩] } =
      .ok 7 [⟨"http://localhost:5000/a", "ip3", 3⟩, ⟨"http://localhost:5000/a", "ip5", 5⟩,
        ⟨"http://localhost:5000/a", "ip6", 6⟩, ⟨"http://localhost:5000/a", "ip7", 7⟩,
        ⟨"http://localhost:5000/a", "ip8", 8⟩] ∧
    getAnalyticsSummary "http://localhost:5000" "c"
      { links := [], analytics := [⟨"http://localhost:5000/a", "ip1", 1⟩] } = .notFound :=
  ⟨(getAnalyticsSummary_nonempty_token "http://localhost:5000" "a" (by decide)
      { links := [],
        analytics := [⟨"http://localhost:5000/a", "ip1", 1⟩, ⟨"http://localhost:5000/a", "ip2", 2⟩,
          ⟨"http://localhost:5000/a", "ip3", 3⟩, ⟨"http://localhost:5000/b", "ip4", 4⟩,
          ⟨"http://localhost:5000/a", "ip5", 5⟩, ⟨"http://localhost:5000/a", "ip6", 6⟩,
          ⟨"http://localhost:5000/a", "ip7", 7⟩, ⟨"http://localhost:5000/a", "ip8", 8⟩] }).2
      (by decide),
    (getAnalyticsSummary_nonempty_token "http://localhost:5000" "c" (by decide)
      { links := [], analytics := [⟨"http://localhost:5000/a", "ip1", 1⟩] }).1 (by decide)⟩

/-! ## End-to-end scenario -/

/-- C8: in every state reachable from empty stores, when a create with original URL `u` and
alias `a` succeeds, one resolve of token `a` not after the stored expiry redirects to
exactly `u`; afterwards `getInfo` for `a` reports `originalUrl = u` and `clickCount = 1`,
and `getAnalyticsSummary` for `a` reports `totalCount = 1` with the one event of that
resolve. The alias is a validated one, hence not empty. -/
theorem create_resolve_info_analytics (BASE_URL : String) (s : State)
    (hreach : Reachable BASE_URL s) (u a : String) (ha : a ≠ "") (e : Option Time)
    (now createdAt : Time) (r : RandomValue) (short : String) (s1 : State)
    (hcreate : createLink BASE_URL (.ok ⟨u, some a, e⟩) now createdAt r s = (.created short, s1))
    (ip : String) (t t2 : Time) (hlive : t ≤ e.getD (now + oneDay)) :
    short = formatShortUrl BASE_URL (some a) ∧
    (resolve BASE_URL a ip t t2 s1).1 = .redirect u ∧
    getInfo BASE_URL a (resolve BASE_URL a ip t t2 s1).2 =
      .ok { originalUrl := u, createdAt := createdAt, clickCount := 1,
            expiresAt := some (e.getD (now + oneDay)) } ∧
    getAnalyticsSummary BASE_URL a (resolve BASE_URL a ip t t2 s1).2 =
      .ok 1 [{ shortUrl := short, ip := ip, openedDate := t2 }] := by
  obtain ⟨hnone, hshort, hs1⟩ := createLink_created BASE_URL _ now createdAt r s s1 short hcreate
  simp only at hnone hshort hs1
  rw [generateShortUrl_alias BASE_URL a ha] at hshort
  have hinv := reachable_eventsHaveLinks BASE_URL s hreach
  -- the new record is the one found for the token
  have hfind : findByShortUrl BASE_URL s1.links (some a) =
      some ⟨u, short, some (e.getD (now + oneDay)), 0, createdAt⟩ := by
    subst hs1
    unfold findByShortUrl at hnone ⊢
    simp [List.find?_append, hnone, hshort]
  have hexp : isExpired ⟨u, short, some (e.getD (now + oneDay)), 0, createdAt⟩ t = false := by
    simp [isExpired, not_lt.mpr hlive]
  have hres := (resolve_cases BASE_URL a ip t t2 s1).2.2 _ hfind hexp
  -- no earlier event carries the alias's short URL
  have hlog : s1.analytics.filter
      (fun ev => ev.shortUrl == formatShortUrl BASE_URL (some a)) = [] := by
    subst hs1
    rw [List.filter_eq_nil_iff]
    intro ev hev hp
    have hmem := hinv ev hev
    simp only [List.mem_map] at hmem
    obtain ⟨l, hl, hle⟩ := hmem
    unfold findByShortUrl at hnone
    rw [List.find?_eq_none] at hnone
    apply hnone l hl
    simpa [hle] using hp
  unfold findByShortUrl at hfind
  have hfind2 := find_bumpClickCount _ _ _ hfind
  refine ⟨hshort, ?_, ?_, ?_⟩
  · rw [hres]
  · rw [hres]
    unfold getInfo findByShortUrl
    simp only [hfind2]
  · rw [hres]
    unfold getAnalyticsSummary getAnalytics sliceLast
    simp only [ha, if_false, List.filter_append, hlog, List.nil_append]
    simp [hshort, formatShortUrl_ne_empty]

/-- Witness for C8: the scenario of the end-to-end test, after an earlier create, resolve
and delete of another alias. -/
theorem create_resolve_info_analytics_witness :
    "http://localhost:5000/testlink" = formatShortUrl "http://localhost:5000" (some "testlink") ∧
    (resolve "http://localhost:5000" "testlink" "10.0.0.1" 50 51
      { links := [⟨"https://example.com", "http://localhost:5000/testlink", some 100, 0, 21⟩],
        analytics := [] }).1 = .redirect "https://example.com" ∧
    getInfo "http://localhost:5000" "testlink"
      (resolve "http://localhost:5000" "testlink" "10.0.0.1" 50 51
        { links := [⟨"https://example.com", "http://localhost:5000/testlink", some 100, 0, 21⟩],
          analytics := [] }).2 =
      .ok { originalUrl := "https://example.com", createdAt := 21, clickCount := 1,
            expiresAt := some ((some (100 : Time)).getD (20 + oneDay)) } ∧
    getAnalyticsSummary "http://localhost:5000" "testlink"
      (resolve "http://localhost:5000" "testlink" "10.0.0.1" 50 51
        { links := [⟨"https://example.com", "http://localhost:5000/testlink", some 100, 0, 21⟩],
          analytics := [] }).2 =
      .ok 1 [{ shortUrl := "http://localhost:5000/testlink", ip := "10.0.0.1", openedDate := 51 }] :=
  create_resolve_info_analytics "http://localhost:5000"
    (step "http://localhost:5000"
      (step "http://localhost:5000"
        (step "http://localhost:5000" emptyState
          (.create (.ok ⟨"https://old.example", some "old", none⟩) 1 2 ⟨"0", by decide⟩))
        (.resolve "old" "10.0.0.7" 3 4))
      (.delete "old"))
    (.next _ _ (.next _ _ (.next _ _ .empty)))
    "https://example.com" "testlink" (by decide) (some 100) 20 21 ⟨"0.i", by decide⟩
    "http://localhost:5000/testlink"
    { links := [⟨"https://example.com", "http://localhost:5000/testlink", some 100, 0, 21⟩],
      analytics := [] }
    (by decide) "10.0.0.1" 50 51 (by decide)

/-! ## Uniqueness of short URLs -/

/-- C2 fails on the code: after a create with alias `00be29` and a create without alias
whose random value is `1 / 4096` (radix 36: `0.00be29`), the link store holds two records
with the short URL `http://localhost:5000/00be29`. The state is reachable. -/
theorem duplicate_shortUrl_reachable :
    Reachable "http://localhost:5000"
      (run "http://localhost:5000"
        [.create (.ok ⟨"https://first.example", some "00be29", none⟩) 0 1 ⟨"0", by decide⟩,
          .create (.ok ⟨"https://second.example", none, none⟩) 5 6 ⟨"0.00be29", by decide⟩]) ∧
    (run "http://localhost:5000"
        [.create (.ok ⟨"https://first.example", some "00be29", none⟩) 0 1 ⟨"0", by decide⟩,
          .create (.ok ⟨"https://second.example", none, none⟩) 5 6 ⟨"0.00be29", by decide⟩]).links =
      [⟨"https://first.example", "http://localhost:5000/00be29", some 86400000, 0, 1⟩,
        ⟨"https://second.example", "http://localhost:5000/00be29", some 86400005, 0, 6⟩] ∧
    ¬ ((run "http://localhost:5000"
        [.create (.ok ⟨"https://first.example", some "00be29", none⟩) 0 1 ⟨"0", by decide⟩,
          .create (.ok ⟨"https://second.example", none, none⟩) 5 6 ⟨"0.00be29", by decide⟩]).links.map
        Link.shortUrl).Nodup :=
  ⟨reachable_run _ _, by decide, by decide⟩

/-! ## Generated tokens -/

/-- C9 fails on the code: for the random value `0.5` (radix 36: `0.i`) the token is `i`
and the generated short URL is `formatShortUrl "i"`, so it is the `formatShortUrl` of no token
of length 6; for the random value `0` (radix 36: `0`) the token is empty. -/
theorem generateShortUrl_short_token :
    randomToken ⟨"0.i", by decide⟩ = "i" ∧
    generateShortUrl "http://localhost:5000" none ⟨"0.i", by decide⟩ =
      formatShortUrl "http://localhost:5000" (some "i") ∧
    (¬ ∃ token : String,
      generateShortUrl "http://localhost:5000" none ⟨"0.i", by decide⟩ =
        formatShortUrl "http://localhost:5000" (some token) ∧ token.length = 6) ∧
    randomToken ⟨"0", by decide⟩ = "" ∧
    generateShortUrl "http://localhost:5000" none ⟨"0", by decide⟩ =
      formatShortUrl "http://localhost:5000" (some "") := by
  refine ⟨by decide, by decide, ?_, by decide, by decide⟩
  rintro ⟨token, h, hlen⟩
  have h1 : generateShortUrl "http://localhost:5000" none ⟨"0.i", by decide⟩ =
      formatShortUrl "http://localhost:5000" (some "i") := by decide
  rw [h1] at h
  rw [← formatShortUrl_injective _ _ _ h] at hlen
  revert hlen
  decide

/-! ## Conflict check without alias -/

/-- C10 fails on the code: once a link with the alias `undefined` exists,
`ensureUniqueShortUrl` called without alias returns the conflict sentinel and a create
request without alias answers Conflict, leaving the stores as they were. -/
theorem ensureUniqueShortUrl_no_alias_conflict :
    (createLink "http://localhost:5000"
      (.ok ⟨"https://example.com", some "undefined", none⟩) 0 1 ⟨"0.i", by decide⟩ emptyState) =
      (.created "http://localhost:5000/undefined",
        { links := [⟨"https://example.com", "http://localhost:5000/undefined", some 86400000, 0, 1⟩],
          analytics := [] }) ∧
    ensureUniqueShortUrl "http://localhost:5000"
      [⟨"https://example.com", "http://localhost:5000/undefined", some 86400000, 0, 1⟩]
      none ⟨"0.00be29", by decide⟩ = none ∧
    createLink "http://localhost:5000" (.ok ⟨"https://other.example", none, none⟩) 5 6
      ⟨"0.00be29", by decide⟩
      { links := [⟨"https://example.com", "http://localhost:5000/undefined", some 86400000, 0, 1⟩],
        analytics := [] } =
      (.conflict,
        { links := [⟨"https://example.com", "http://localhost:5000/undefined", some 86400000, 0, 1⟩],
          analytics := [] }) := by
  decide

end UrlShortner
